import Mathlib

/-!
Shallow embedding of the conversion logic of `src/app.py` (the
`arkitektio-apps/omero` converter).  Pure functions of the Python source are
translated to Lean functions; fallible code returns `Except ConvError`.
Datetimes are modelled as integers counting microseconds since an epoch
(Python datetimes have microsecond resolution, so datetime subtraction is
exact in this unit); physical quantities are modelled as rationals.
-/

/-- The kinds of Python exceptions the modelled code can raise. -/
inductive ConvError where
  | notImplemented : String → ConvError
  | assertionError : String → ConvError
  | indexError : ConvError
  | attributeError : ConvError
deriving DecidableEq

/-- Result of `xr.DataArray(image, dims=...)`: the array shape together with
its dimension labels (pixel contents are irrelevant to the claims, which are
about shapes and metadata). -/
structure DataArray where
  shape : List Nat
  dims : List Char
deriving DecidableEq

/-- Python `s.endswith(suffix)` for a single suffix. -/
def endswith (s suffix : String) : Bool :=
  suffix.data.isSuffixOf s.data

/-- A plane record of `ome_types.model.Pixels.planes` (fields used by
`src/app.py`, with the source field names). -/
structure Plane where
  the_z : Nat
  the_c : Nat
  the_t : Nat
  exposure_time : Option ℚ
  delta_t : Option ℚ
  position_x : Option ℚ
  position_y : Option ℚ
  position_z : Option ℚ
deriving DecidableEq

/-- An `ome_types` color; `as_rgb` yields the RGB triple. -/
structure Color where
  r : Nat
  g : Nat
  b : Nat
deriving DecidableEq

def Color.as_rgb (c : Color) : Nat × Nat × Nat := (c.r, c.g, c.b)

/-- An acquisition-mode enum member; `value` is its tag string. -/
structure AcquisitionMode where
  value : String
deriving DecidableEq

/-- A channel record of `ome_types.model.Pixels.channels` (fields used by
`src/app.py`). -/
structure Channel where
  name : Option String
  emission_wavelength : Option ℚ
  excitation_wavelength : Option ℚ
  acquisition_mode : Option AcquisitionMode
  color : Option Color
deriving DecidableEq

/-- The `Pixels` metadata of one image, as used by `src/app.py`. -/
structure Pixels where
  planes : List Plane
  channels : List Channel
  physical_size_x : Option ℚ
  physical_size_y : Option ℚ
  physical_size_z : Option ℚ
deriving DecidableEq

/-- `load_as_xarray` of `src/app.py` (lines 40-49).  The decoded array
`tifffile.imread(path)` is external input and enters the embedding as its
shape `image`; `numpy.reshape` with the tuple `(1,) * (5 - ndim) + shape`
prepends `5 - ndim` size-1 axes (an empty tuple when `ndim ≥ 5`, which
truncated `Nat` subtraction models exactly).  Non-TIFF paths raise
`NotImplementedError`. -/
def load_as_xarray (path : String) (series : Nat) (pixels : Pixels)
    (image : List Nat) : Except ConvError DataArray :=
  if endswith path ".stk" || endswith path ".tif" ||
      endswith path ".tiff" || endswith path ".TIF" then
    .ok { shape := List.replicate (5 - image.length) 1 ++ image,
          dims := ['c', 't', 'z', 'y', 'x'] }
  else
    .error (.notImplemented "Only tiff supported at the moment. Because of horrendous python bioformats performance and memory leaks.")

/-- Claim C1: for a TIFF-family path whose decoded array has 2 to 5
dimensions, `load_as_xarray` returns a 5-dimensional array whose shape is the
input shape with only size-1 axes prepended (existing axes in their original
order), labelled with the axis order c, t, z, y, x. -/
theorem load_as_xarray_pads_to_five (path : String) (series : Nat)
    (pixels : Pixels) (image : List Nat)
    (hext : endswith path ".stk" = true ∨ endswith path ".tif" = true ∨
      endswith path ".tiff" = true ∨ endswith path ".TIF" = true)
    (hlo : 2 ≤ image.length) (hhi : image.length ≤ 5) :
    ∃ arr : DataArray,
      load_as_xarray path series pixels image = .ok arr ∧
      arr.shape = List.replicate (5 - image.length) 1 ++ image ∧
      arr.shape.length = 5 ∧
      arr.shape.drop (5 - image.length) = image ∧
      arr.dims = ['c', 't', 'z', 'y', 'x'] := by
  refine ⟨{ shape := List.replicate (5 - image.length) 1 ++ image,
            dims := ['c', 't', 'z', 'y', 'x'] }, ?_, rfl, ?_, ?_, rfl⟩
  · unfold load_as_xarray
    rcases hext with h | h | h | h <;> simp [h]
  · simp [List.length_append, List.length_replicate, Nat.sub_add_cancel hhi]
  · simp [List.drop_append_of_le_length, List.length_replicate]

/-- Witness for C1 on the spec's example: a TIFF stack of shape
(2, 5, 512, 512) yields shape (1, 2, 5, 512, 512). -/
theorem load_as_xarray_pads_to_five_witness :
    ∃ arr : DataArray,
      load_as_xarray "stack.tif" 0
          { planes := [], channels := [], physical_size_x := none,
            physical_size_y := none, physical_size_z := none }
          [2, 5, 512, 512] = .ok arr ∧
      arr.shape = List.replicate (5 - ([2, 5, 512, 512] : List Nat).length) 1
          ++ [2, 5, 512, 512] ∧
      arr.shape.length = 5 ∧
      arr.shape.drop (5 - ([2, 5, 512, 512] : List Nat).length) =
          [2, 5, 512, 512] ∧
      arr.dims = ['c', 't', 'z', 'y', 'x'] :=
  load_as_xarray_pads_to_five "stack.tif" 0
    { planes := [], channels := [], physical_size_x := none,
      physical_size_y := none, physical_size_z := none }
    [2, 5, 512, 512] (Or.inr (Or.inl (by decide))) (by decide) (by decide)

/-- Claim C9: a path without a TIFF-family suffix makes `load_as_xarray` fail
with the `NotImplementedError` (no fallback result is produced), while a path
with a TIFF-family suffix never produces that error. -/
theorem load_as_xarray_rejects_non_tiff (path : String) (series : Nat)
    (pixels : Pixels) (image : List Nat) :
    (endswith path ".stk" = false → endswith path ".tif" = false →
      endswith path ".tiff" = false → endswith path ".TIF" = false →
      load_as_xarray path series pixels image =
        .error (.notImplemented "Only tiff supported at the moment. Because of horrendous python bioformats performance and memory leaks.")) ∧
    ((endswith path ".stk" = true ∨ endswith path ".tif" = true ∨
        endswith path ".tiff" = true ∨ endswith path ".TIF" = true) →
      ∃ arr, load_as_xarray path series pixels image = .ok arr) := by
  constructor
  · intro h1 h2 h3 h4
    unfold load_as_xarray
    simp [h1, h2, h3, h4]
  · intro hext
    refine ⟨{ shape := List.replicate (5 - image.length) 1 ++ image,
              dims := ['c', 't', 'z', 'y', 'x'] }, ?_⟩
    unfold load_as_xarray
    rcases hext with h | h | h | h <;> simp [h]

/-- Witness for C9: a `.png` path fails with the explicit error, a `.tif`
path succeeds. -/
theorem load_as_xarray_rejects_non_tiff_witness :
    load_as_xarray "image.png" 0
        { planes := [], channels := [], physical_size_x := none,
          physical_size_y := none, physical_size_z := none } [4, 4] =
      .error (.notImplemented "Only tiff supported at the moment. Because of horrendous python bioformats performance and memory leaks.") ∧
    ∃ arr, load_as_xarray "image.tif" 0
        { planes := [], channels := [], physical_size_x := none,
          physical_size_y := none, physical_size_z := none } [4, 4] =
      .ok arr :=
  ⟨(load_as_xarray_rejects_non_tiff "image.png" 0
      { planes := [], channels := [], physical_size_x := none,
        physical_size_y := none, physical_size_z := none } [4, 4]).1
      (by decide) (by decide) (by decide) (by decide),
   (load_as_xarray_rejects_non_tiff "image.tif" 0
      { planes := [], channels := [], physical_size_x := none,
        physical_size_y := none, physical_size_z := none } [4, 4]).2
      (Or.inr (Or.inl (by decide)))⟩

/-- The microscope record of an `ome_types` instrument (fields used by
`src/app.py`). -/
structure Microscope where
  lot_number : Option String
  serial_number : Option String
  manufacturer : Option String
deriving DecidableEq

/-- An `ome_types` instrument as used by `src/app.py`: its `id` is modelled
as `Option String`, with `none` or the empty string both falsy under the
`if instrument.id:` test of line 92. -/
structure Instrument where
  id : Option String
  microscope : Option Microscope
deriving DecidableEq

/-- The record built by the `create_instrument` call of `src/app.py`
(lines 93-106): name is the instrument id; microscope fields pass through
when a microscope is present and are null otherwise. -/
structure InstrumentRecord where
  name : String
  lot_number : Option String
  serial_number : Option String
  manufacturer : Option String
deriving DecidableEq

def create_instrument (id : String) (microscope : Option Microscope) :
    InstrumentRecord :=
  { name := id,
    lot_number := microscope.bind (fun m => m.lot_number),
    serial_number := microscope.bind (fun m => m.serial_number),
    manufacturer := microscope.bind (fun m => m.manufacturer) }

/-- One iteration of the `instrument_map` loop of `src/app.py` (lines 91-106):
register the instrument under its id only when `instrument.id` is truthy
(neither `None` nor the empty string); the Python dict is modelled as a
function from keys to optional values, a later binding overwriting an
earlier one. -/
def instrumentStep (m : String → Option InstrumentRecord) (ins : Instrument) :
    String → Option InstrumentRecord :=
  match ins.id with
  | none => m
  | some id =>
      if id = "" then m
      else fun k =>
        if k = id then some (create_instrument id ins.microscope) else m k

/-- The `instrument_map` built by the loop of `src/app.py` (lines 89-106). -/
def buildInstrumentMap (instruments : List Instrument) :
    String → Option InstrumentRecord :=
  instruments.foldl instrumentStep (fun _ => none)

/-- An `InstrumentRef` of an `ome_types` image. -/
structure InstrumentRef where
  id : String
deriving DecidableEq

/-- The image's instrument field (lines 192-194 of `src/app.py`):
`instrument_map.get(image.instrument_ref.id, None) if image.instrument_ref
else None`. -/
def imageInstrument (instrument_map : String → Option InstrumentRecord)
    (ref : Option InstrumentRef) : Option InstrumentRecord :=
  match ref with
  | none => none
  | some r => instrument_map r.id

lemma instrumentStep_isSome (m : String → Option InstrumentRecord)
    (ins : Instrument) (k : String) :
    ((instrumentStep m ins) k).isSome = true ↔
      ((m k).isSome = true ∨ (k ≠ "" ∧ ins.id = some k)) := by
  rcases hid : ins.id with _ | id
  · simp [instrumentStep, hid]
  · simp only [instrumentStep, hid]
    by_cases hemp : id = ""
    · subst hemp
      simp only [if_pos rfl]
      constructor
      · exact Or.inl
      · rintro (h | ⟨hk, heq⟩)
        · exact h
        · exact absurd (Option.some_injective _ heq).symm hk
    · rw [if_neg hemp]
      by_cases hk : k = id
      · subst hk
        simp [hemp]
      · rw [if_neg hk]
        constructor
        · exact Or.inl
        · rintro (h | ⟨hne, heq⟩)
          · exact h
          · exact absurd (Option.some_injective _ heq).symm hk

lemma buildInstrumentMap_foldl_isSome (instruments : List Instrument)
    (init : String → Option InstrumentRecord) (k : String) :
    ((instruments.foldl instrumentStep init) k).isSome = true ↔
      ((init k).isSome = true ∨
        (k ≠ "" ∧ ∃ ins ∈ instruments, ins.id = some k)) := by
  induction instruments generalizing init with
  | nil => simp
  | cons hd tl ih =>
    rw [List.foldl_cons, ih, instrumentStep_isSome]
    constructor
    · rintro ((h | ⟨hk, heq⟩) | ⟨hk, ins, hmem, heq⟩)
      · exact Or.inl h
      · exact Or.inr ⟨hk, hd, List.mem_cons_self _ _, heq⟩
      · exact Or.inr ⟨hk, ins, List.mem_cons_of_mem _ hmem, heq⟩
    · rintro (h | ⟨hk, ins, hmem, heq⟩)
      · exact Or.inl (Or.inl h)
      · rcases List.mem_cons.mp hmem with rfl | hmem
        · exact Or.inl (Or.inr ⟨hk, heq⟩)
        · exact Or.inr ⟨hk, ins, hmem, heq⟩

/-- Claim C8: the instrument map has an entry for a key exactly when some
source instrument carries that key as a non-empty identifier, and an image
whose instrument reference misses the map gets a null instrument field
rather than an error. -/
theorem instrument_map_entry_iff (instruments : List Instrument) (k : String) :
    ((buildInstrumentMap instruments k).isSome = true ↔
      (k ≠ "" ∧ ∃ ins ∈ instruments, ins.id = some k)) ∧
    ((¬ ∃ ins ∈ instruments, ins.id = some k) →
      imageInstrument (buildInstrumentMap instruments) (some ⟨k⟩) = none) := by
  have hmain : (buildInstrumentMap instruments k).isSome = true ↔
      (k ≠ "" ∧ ∃ ins ∈ instruments, ins.id = some k) := by
    have h := buildInstrumentMap_foldl_isSome instruments (fun _ => none) k
    simpa [buildInstrumentMap] using h
  refine ⟨hmain, fun habs => ?_⟩
  have : ¬ (buildInstrumentMap instruments k).isSome = true := by
    rw [hmain]
    rintro ⟨_, hex⟩
    exact habs hex
  unfold imageInstrument
  exact Option.not_isSome_iff_eq_none.mp this

/-- Witness for C8: an instrument list with one empty-id, one `None`-id and
one `"scope"`-id instrument registers exactly `"scope"`, and looking up a
missing id gives a null instrument field. -/
theorem instrument_map_entry_iff_witness :
    ((buildInstrumentMap
        [{ id := some "", microscope := none },
         { id := none, microscope := none },
         { id := some "scope", microscope := none }] "scope").isSome = true ↔
      ("scope" ≠ "" ∧ ∃ ins ∈
        [({ id := some "", microscope := none } : Instrument),
         { id := none, microscope := none },
         { id := some "scope", microscope := none }], ins.id = some "scope")) ∧
    ((¬ ∃ ins ∈
        [({ id := some "", microscope := none } : Instrument),
         { id := none, microscope := none },
         { id := some "scope", microscope := none }], ins.id = some "missing") →
      imageInstrument
        (buildInstrumentMap
          [{ id := some "", microscope := none },
           { id := none, microscope := none },
           { id := some "scope", microscope := none }])
        (some ⟨"missing"⟩) = none) :=
  ⟨(instrument_map_entry_iff
      [{ id := some "", microscope := none },
       { id := none, microscope := none },
       { id := some "scope", microscope := none }] "scope").1,
   (instrument_map_entry_iff
      [{ id := some "", microscope := none },
       { id := none, microscope := none },
       { id := some "scope", microscope := none }] "missing").2⟩

/-- A `StageFragment` context entity (opaque handle). -/
structure StageFragment where
  id : String
deriving DecidableEq

/-- The record built by `create_position` in `src/app.py` (lines 123-129). -/
structure PositionRecord where
  stage : StageFragment
  x : ℚ
  y : ℚ
  z : ℚ
  tolerance : Option ℚ
deriving DecidableEq

/-- The position derivation of `convert_omero_file` (lines 121-129 of
`src/app.py`): a position exists only under `stage and position_from_planes
and len(pixels.planes) > 0`, and then takes the first plane's `position_x`
and `position_y` with Python `or 0` defaulting, a literal `z = 1`, and the
caller's tolerance. -/
def derivePosition (stage : Option StageFragment) (position_from_planes : Bool)
    (planes : List Plane) (position_tolerance : Option ℚ) :
    Option PositionRecord :=
  match stage with
  | none => none
  | some s =>
      if position_from_planes then
        match planes with
        | [] => none
        | first_plane :: _ =>
            some { stage := s,
                   x := first_plane.position_x.getD 0,
                   y := first_plane.position_y.getD 0,
                   z := 1,
                   tolerance := position_tolerance }
      else none

/-- Claim C7: a position is created exactly when a stage is supplied,
`position_from_planes` holds and at least one plane exists; the created
position uses the first plane's x and y (missing values defaulted to 0),
a fixed z of 1, and the caller's tolerance. -/
theorem derivePosition_spec (stage : Option StageFragment)
    (position_from_planes : Bool) (planes : List Plane)
    (position_tolerance : Option ℚ) :
    ((derivePosition stage position_from_planes planes
        position_tolerance).isSome = true ↔
      (stage.isSome = true ∧ position_from_planes = true ∧ planes ≠ [])) ∧
    (∀ s first_plane rest, stage = some s → planes = first_plane :: rest →
      position_from_planes = true →
      derivePosition stage position_from_planes planes position_tolerance =
        some { stage := s,
               x := first_plane.position_x.getD 0,
               y := first_plane.position_y.getD 0,
               z := 1,
               tolerance := position_tolerance }) := by
  constructor
  · rcases stage with _ | s
    · simp [derivePosition]
    · rcases planes with _ | ⟨p, ps⟩
      · rcases position_from_planes <;> simp [derivePosition]
      · rcases position_from_planes <;> simp [derivePosition]
  · rintro s first_plane rest rfl rfl rfl
    rfl

/-- Witness for C7: a stage with one plane carrying `position_x = 3` and a
missing `position_y` yields the position `(3, 0, 1)`; the same call is
`isSome`. -/
theorem derivePosition_spec_witness :
    ((derivePosition (some ⟨"stage"⟩) true
        [{ the_z := 0, the_c := 0, the_t := 0, exposure_time := none,
           delta_t := none, position_x := some 3, position_y := none,
           position_z := some 7 }] (some 1)).isSome = true ↔
      ((some (⟨"stage"⟩ : StageFragment)).isSome = true ∧ true = true ∧
        [({ the_z := 0, the_c := 0, the_t := 0, exposure_time := none,
            delta_t := none, position_x := some 3, position_y := none,
            position_z := some 7 } : Plane)] ≠ [])) ∧
    derivePosition (some ⟨"stage"⟩) true
        [{ the_z := 0, the_c := 0, the_t := 0, exposure_time := none,
           delta_t := none, position_x := some 3, position_y := none,
           position_z := some 7 }] (some 1) =
      some { stage := ⟨"stage"⟩, x := 3, y := 0, z := 1,
             tolerance := some 1 } :=
  ⟨(derivePosition_spec (some ⟨"stage"⟩) true
      [{ the_z := 0, the_c := 0, the_t := 0, exposure_time := none,
         delta_t := none, position_x := some 3, position_y := none,
         position_z := some 7 }] (some 1)).1,
   (derivePosition_spec (some ⟨"stage"⟩) true
      [{ the_z := 0, the_c := 0, the_t := 0, exposure_time := none,
         delta_t := none, position_x := some 3, position_y := none,
         position_z := some 7 }] (some 1)).2 ⟨"stage"⟩
      { the_z := 0, the_c := 0, the_t := 0, exposure_time := none,
        delta_t := none, position_x := some 3, position_y := none,
        position_z := some 7 } [] rfl rfl rfl⟩

/-- An `EraFragment` context entity: its optional `start` instant is a naive
datetime, modelled in microseconds since an epoch. -/
structure EraFragment where
  start : Option Int
deriving DecidableEq

/-- The record built by `create_timepoint` in `src/app.py` (lines 134-138). -/
structure TimepointRecord where
  delta_t : Int
  tolerance : Option ℚ
deriving DecidableEq

/-- The timepoint derivation of `convert_omero_file` (lines 131-138 of
`src/app.py`).  Inside `if era and timepoint_from_time and
image.acquisition_date:` the code first asserts `era.start`, then evaluates
`pixels.planes[0]` (raising `IndexError` on an empty plane list even though
the fetched plane is never used), and finally computes `delta_t` as
`(acquisition_date - era.start).microseconds`: with the difference measured
in whole microseconds `d`, Python's `timedelta.microseconds` component is the
floored remainder `d mod 1000000`, discarding the days and seconds
components. -/
def deriveTimepoint (era : Option EraFragment) (timepoint_from_time : Bool)
    (acquisition_date : Option Int) (planes : List Plane)
    (timepoint_tolerance : Option ℚ) :
    Except ConvError (Option TimepointRecord) :=
  match era, timepoint_from_time, acquisition_date with
  | some e, true, some acq =>
      match e.start with
      | none => .error (.assertionError "Era needs to have a start")
      | some start =>
          match planes with
          | [] => .error .indexError
          | _ :: _ =>
              .ok (some { delta_t := (acq - start) % 1000000,
                          tolerance := timepoint_tolerance })
  | _, _, _ => .ok none

/-- Claim C3: with an era, `timepoint_from_time` on and an acquisition date
present, the produced `delta_t` is exactly the microseconds component of the
difference — its nonnegative remainder modulo 1000000 microseconds, whole
seconds and days discarded — and an era without a start fails the
assertion. -/
theorem deriveTimepoint_spec (e : EraFragment) (acq : Int)
    (planes : List Plane) (timepoint_tolerance : Option ℚ) :
    (∀ start first_plane rest, e.start = some start →
      planes = first_plane :: rest →
      deriveTimepoint (some e) true (some acq) planes timepoint_tolerance =
        .ok (some { delta_t := (acq - start) % 1000000,
                    tolerance := timepoint_tolerance }) ∧
      (acq - start) % 1000000 =
        (acq - start) - 1000000 * ((acq - start) / 1000000 : Int) ∧
      0 ≤ (acq - start) % 1000000 ∧ (acq - start) % 1000000 < 1000000) ∧
    (e.start = none →
      deriveTimepoint (some e) true (some acq) planes timepoint_tolerance =
        .error (.assertionError "Era needs to have a start")) := by
  constructor
  · rintro start first_plane rest hstart rfl
    refine ⟨?_, ?_, Int.emod_nonneg _ (by norm_num),
      Int.emod_lt_of_pos _ (by norm_num)⟩
    · simp only [deriveTimepoint, hstart]
    · rw [Int.emod_def]
  · intro hstart
    simp only [deriveTimepoint, hstart]

/-- Witness for C3: an acquisition date 2000000 plus 17 microseconds after the
era start yields `delta_t = 17` (the two whole seconds are discarded), and the
same era with no start fails the assertion. -/
theorem deriveTimepoint_spec_witness :
    (deriveTimepoint (some ⟨some 0⟩) true (some 2000017)
        [{ the_z := 0, the_c := 0, the_t := 0, exposure_time := none,
           delta_t := none, position_x := none, position_y := none,
           position_z := none }] none =
      .ok (some { delta_t := ((2000017 : Int) - 0) % 1000000,
                  tolerance := none })) ∧
    deriveTimepoint (some ⟨none⟩) true (some 2000017)
        [{ the_z := 0, the_c := 0, the_t := 0, exposure_time := none,
           delta_t := none, position_x := none, position_y := none,
           position_z := none }] none =
      .error (.assertionError "Era needs to have a start") :=
  ⟨(((deriveTimepoint_spec ⟨some 0⟩ 2000017
      [{ the_z := 0, the_c := 0, the_t := 0, exposure_time := none,
         delta_t := none, position_x := none, position_y := none,
         position_z := none }] none).1 0
      { the_z := 0, the_c := 0, the_t := 0, exposure_time := none,
        delta_t := none, position_x := none, position_y := none,
        position_z := none } [] rfl rfl).1),
   ((deriveTimepoint_spec ⟨none⟩ 2000017
      [{ the_z := 0, the_c := 0, the_t := 0, exposure_time := none,
         delta_t := none, position_x := none, position_y := none,
         position_z := none }] none).2 rfl)⟩

/-- Claim C10: with an era that has a start, `timepoint_from_time` on and an
acquisition date present, an image whose pixels hold zero planes makes the
timepoint derivation raise `IndexError` from `pixels.planes[0]` instead of
producing a timepoint. -/
theorem deriveTimepoint_empty_planes_raises (e : EraFragment) (start : Int)
    (acq : Int) (timepoint_tolerance : Option ℚ)
    (hstart : e.start = some start) :
    deriveTimepoint (some e) true (some acq) [] timepoint_tolerance =
      .error .indexError := by
  simp only [deriveTimepoint, hstart]

/-- Witness for C10: a concrete era starting at 0 with an acquisition date
and no planes raises the out-of-bounds error. -/
theorem deriveTimepoint_empty_planes_raises_witness :
    deriveTimepoint (some ⟨some 0⟩) true (some 42) [] none =
      .error .indexError :=
  deriveTimepoint_empty_planes_raises ⟨some 0⟩ 0 42 none rfl

/-- Python string truthiness of `a or dflt` on an optional string: `None`
and the empty string fall back to the default. -/
def pyStrOr (s : Option String) (dflt : String) : String :=
  match s with
  | none => dflt
  | some n => if n = "" then dflt else n

/-- The record built by the `create_channel` call of `src/app.py`
(lines 146-154): the name defaults via Python `or` to `"Channel {index}"`,
and every other field passes through with `None` guards. -/
structure ChannelRecord where
  name : String
  emission_wavelength : Option ℚ
  excitation_wavelength : Option ℚ
  acquisition_mode : Option String
  color : Option (Nat × Nat × Nat)
deriving DecidableEq

def create_channel (index : Nat) (c : Channel) : ChannelRecord :=
  { name := pyStrOr c.name ("Channel " ++ toString index),
    emission_wavelength := c.emission_wavelength,
    excitation_wavelength := c.excitation_wavelength,
    acquisition_mode := c.acquisition_mode.map (fun m => m.value),
    color := c.color.map (fun col => col.as_rgb) }

/-- A `RepresentationViewInput` of `src/app.py` (lines 156-160). -/
structure RepresentationViewInput where
  cMin : Nat
  cMax : Nat
  channel : ChannelRecord
deriving DecidableEq

/-- The body of `for index, c in enumerate(pixels.channels)` (lines 145-160
of `src/app.py`), with `i` the running enumerate counter. -/
def mkViewsAux (i : Nat) (channels : List Channel) :
    List RepresentationViewInput :=
  match channels with
  | [] => []
  | c :: cs =>
      { cMin := i, cMax := i, channel := create_channel i c } ::
        mkViewsAux (i + 1) cs

/-- The views accumulated by `convert_omero_file` (lines 114 and 144-160 of
`src/app.py`): the enumerate loop runs only under `if
channels_from_channels:`. -/
def mkViews (channels_from_channels : Bool) (channels : List Channel) :
    List RepresentationViewInput :=
  if channels_from_channels then mkViewsAux 0 channels else []

lemma mkViewsAux_length (i : Nat) (channels : List Channel) :
    (mkViewsAux i channels).length = channels.length := by
  induction channels generalizing i with
  | nil => rfl
  | cons c cs ih => simp [mkViewsAux, ih]

/-- A channel value with every optional field absent, used as the `getD`
default below. -/
def dChannel : Channel :=
  { name := none, emission_wavelength := none, excitation_wavelength := none,
    acquisition_mode := none, color := none }

/-- A view value used as the `getD` default below. -/
def dView : RepresentationViewInput :=
  { cMin := 0, cMax := 0, channel := create_channel 0 dChannel }

lemma mkViewsAux_getD (i : Nat) (channels : List Channel) (j : Nat)
    (hj : j < channels.length) :
    (mkViewsAux i channels).getD j dView =
      { cMin := i + j, cMax := i + j,
        channel := create_channel (i + j) (channels.getD j dChannel) } := by
  induction channels generalizing i j with
  | nil => simp at hj
  | cons c cs ih =>
    rcases j with _ | j
    · simp [mkViewsAux]
    · have hj' : j < cs.length := by simpa using hj
      have hrec := ih (i + 1) j hj'
      have harith : i + 1 + j = i + (j + 1) := by omega
      simp only [mkViewsAux, List.getD_cons_succ, hrec, harith]

/-- Claim C6: with `channels_from_channels` enabled, exactly one channel
record and one view per source channel are created, a channel without a
source name is named `"Channel {index}"`, and every view has
`cMin = cMax = the channel's index`. -/
theorem mkViews_channel_count_and_indices (channels : List Channel) :
    (mkViews true channels).length = channels.length ∧
    (∀ j, j < channels.length →
      ((mkViews true channels).getD j dView).cMin = j ∧
      ((mkViews true channels).getD j dView).cMax = j) ∧
    (∀ j, j < channels.length → (channels.getD j dChannel).name = none →
      ((mkViews true channels).getD j dView).channel.name =
        "Channel " ++ toString j) := by
  refine ⟨by simp [mkViews, mkViewsAux_length], ?_, ?_⟩
  · intro j hj
    have h : (mkViews true channels).getD j dView =
        { cMin := j, cMax := j,
          channel := create_channel j (channels.getD j dChannel) } := by
      have := mkViewsAux_getD 0 channels j hj
      simpa [mkViews] using this
    rw [h]
    exact ⟨rfl, rfl⟩
  · intro j hj hname
    have h : (mkViews true channels).getD j dView =
        { cMin := j, cMax := j,
          channel := create_channel j (channels.getD j dChannel) } := by
      have := mkViewsAux_getD 0 channels j hj
      simpa [mkViews] using this
    rw [h]
    simp only [create_channel, hname]
    rfl

/-- Witness for C6: two channels, the first named, the second nameless, yield
two views with matching indices and the defaulted name `"Channel 1"`. -/
theorem mkViews_channel_count_and_indices_witness :
    (mkViews true
      [{ name := some "DAPI", emission_wavelength := none,
         excitation_wavelength := none, acquisition_mode := none,
         color := none }, dChannel]).length =
      ([{ name := some "DAPI", emission_wavelength := none,
          excitation_wavelength := none, acquisition_mode := none,
          color := none }, dChannel] : List Channel).length ∧
    ((mkViews true
      [{ name := some "DAPI", emission_wavelength := none,
         excitation_wavelength := none, acquisition_mode := none,
         color := none }, dChannel]).getD 1 dView).cMin = 1 ∧
    ((mkViews true
      [{ name := some "DAPI", emission_wavelength := none,
         excitation_wavelength := none, acquisition_mode := none,
         color := none }, dChannel]).getD 1 dView).cMax = 1 ∧
    ((mkViews true
      [{ name := some "DAPI", emission_wavelength := none,
         excitation_wavelength := none, acquisition_mode := none,
         color := none }, dChannel]).getD 1 dView).channel.name =
      "Channel " ++ toString 1 :=
  ⟨(mkViews_channel_count_and_indices
      [{ name := some "DAPI", emission_wavelength := none,
         excitation_wavelength := none, acquisition_mode := none,
         color := none }, dChannel]).1,
   ((mkViews_channel_count_and_indices
      [{ name := some "DAPI", emission_wavelength := none,
         excitation_wavelength := none, acquisition_mode := none,
         color := none }, dChannel]).2.1 1 (by decide)).1,
   ((mkViews_channel_count_and_indices
      [{ name := some "DAPI", emission_wavelength := none,
         excitation_wavelength := none, acquisition_mode := none,
         color := none }, dChannel]).2.1 1 (by decide)).2,
   (mkViews_channel_count_and_indices
      [{ name := some "DAPI", emission_wavelength := none,
         excitation_wavelength := none, acquisition_mode := none,
         color := none }, dChannel]).2.2 1 (by decide) (by decide)⟩

/-- A `ChannelInput` of the omero payload (lines 195-206 of `src/app.py`);
the `color` field has no `Option`, because the source calls
`c.color.as_rgb()` unconditionally there. -/
structure ChannelInput where
  name : Option String
  emmissionWavelength : Option ℚ
  excitationWavelength : Option ℚ
  acquisitionMode : Option String
  color : Nat × Nat × Nat
deriving DecidableEq

/-- The `ChannelInput` construction of `src/app.py` (lines 196-204): name,
wavelengths and acquisition mode pass through with `None` mapped to null,
but `color=c.color.as_rgb()` is called without a guard, so a channel whose
color is absent raises `AttributeError` (`None` has no `as_rgb`). -/
def mkOmeroChannelInput (c : Channel) : Except ConvError ChannelInput :=
  match c.color with
  | none => .error .attributeError
  | some col =>
      .ok { name := c.name,
            emmissionWavelength := c.emission_wavelength,
            excitationWavelength := c.excitation_wavelength,
            acquisitionMode := c.acquisition_mode.map (fun m => m.value),
            color := col.as_rgb }

/-- The channels list of the omero payload (lines 195-206 of `src/app.py`):
the list comprehension fails as a whole when any element raises. -/
def mkOmeroChannels (channels : List Channel) :
    Except ConvError (List ChannelInput) :=
  channels.mapM mkOmeroChannelInput

/-- Claim C5 at its failing input: the `create_channel` path (lines 146-154)
maps a channel with every optional field missing to defaulted or null fields
without error, but the omero `ChannelInput` path (lines 195-206) raises
`AttributeError` on the very same channel because its missing color is
dereferenced with `as_rgb` unguarded — so a missing optional color is an
error, contradicting the claim. -/
theorem mkOmeroChannelInput_missing_color_raises :
    create_channel 0 dChannel =
      { name := "Channel 0", emission_wavelength := none,
        excitation_wavelength := none, acquisition_mode := none,
        color := none } ∧
    mkOmeroChannelInput dChannel = .error .attributeError ∧
    mkOmeroChannels [dChannel] = .error .attributeError := by
  refine ⟨rfl, rfl, rfl⟩

/-- The value Python's `index` variable holds at line 165 of `src/app.py`.
The outer loop `for index, image in enumerate(meta.images)` (line 108) binds
the series index, but the inner loop `for index, c in
enumerate(pixels.channels)` (line 145) reuses the same variable, so after a
non-empty channel loop under `channels_from_channels` the name uses the last
channel's index instead of the series index. -/
def nameIndex (seriesIndex : Nat) (channels_from_channels : Bool)
    (channels : List Channel) : Nat :=
  if channels_from_channels then
    match channels with
    | [] => seriesIndex
    | _ :: _ => channels.length - 1
  else seriesIndex

/-- The display name of line 165 of `src/app.py`:
`file.name + " - " + (image.name if image.name else f"({index})")`, with
Python string truthiness (an empty or absent image name both fall back to
the parenthesised index). -/
def imageDisplayName (fileName : String) (imageName : Option String)
    (index : Nat) : String :=
  fileName ++ " - " ++
    (match imageName with
     | none => "(" ++ toString index ++ ")"
     | some n => if n = "" then "(" ++ toString index ++ ")" else n)

/-- Claim C4 counterexample: a file named `"f"`, an unnamed image at series
index 0 with two channels and `channels_from_channels` enabled is displayed
as `"f - (1)"` — the parenthesised number is the last channel's index from
the shadowed loop variable — whereas the claim requires the series index,
`"f - (0)"`. -/
theorem imageDisplayName_shadowed_index :
    imageDisplayName "f" none (nameIndex 0 true [dChannel, dChannel]) =
      "f - (1)" ∧
    imageDisplayName "f" none (nameIndex 0 true [dChannel, dChannel]) ≠
      "f - (0)" := by
  refine ⟨rfl, ?_⟩
  rw [show imageDisplayName "f" none (nameIndex 0 true [dChannel, dChannel]) =
    "f - (1)" from rfl]
  decide

/-- The named-image half of claim C4 does hold, and the unnamed half holds
whenever the channel loop did not run (channels_from_channels off or no
channels): the composed name is `"{file.name} - {image.name}"` for a named
image, and `"{file.name} - ({series index})"` otherwise. -/
theorem imageDisplayName_spec_when_no_shadowing (fileName : String)
    (imageName : Option String) (seriesIndex : Nat)
    (channels_from_channels : Bool) (channels : List Channel) :
    (∀ n, imageName = some n → n ≠ "" →
      imageDisplayName fileName imageName
          (nameIndex seriesIndex channels_from_channels channels) =
        fileName ++ " - " ++ n) ∧
    (imageName = none →
      (channels_from_channels = false ∨ channels = []) →
      imageDisplayName fileName imageName
          (nameIndex seriesIndex channels_from_channels channels) =
        fileName ++ " - " ++ ("(" ++ toString seriesIndex ++ ")")) := by
  constructor
  · rintro n rfl hne
    simp [imageDisplayName, hne]
  · rintro rfl hcase
    rcases hcase with rfl | rfl
    · simp [imageDisplayName, nameIndex]
    · rcases channels_from_channels <;> simp [imageDisplayName, nameIndex]

/-- Witness for the amended C4: a named image keeps its name, and an unnamed
image with no channels gets the series index. -/
theorem imageDisplayName_spec_when_no_shadowing_witness :
    imageDisplayName "f" (some "img") (nameIndex 3 true [dChannel]) =
      "f" ++ " - " ++ "img" ∧
    imageDisplayName "f" none (nameIndex 3 true []) =
      "f" ++ " - " ++ ("(" ++ toString 3 ++ ")") :=
  ⟨(imageDisplayName_spec_when_no_shadowing "f" (some "img") 3 true
      [dChannel]).1 "img" rfl (by decide),
   (imageDisplayName_spec_when_no_shadowing "f" none 3 true []).2 rfl
      (Or.inr rfl)⟩

/-- Modelled from the spec: the plane-indexed decoding path (spec section 4.1,
path 2) is not present under `src/` — only the simple-stack path is — so its
transpose heuristic is taken from the spec's words: a fetched 2-D plane with
leading dimension lengths `d0, d1` is transposed before storing exactly when,
compared against the declared `(size_x, size_y)`, the width matches the
plane's second axis and the height matches its first axis, and additionally
`size_x != size_y` so the swap is unambiguous. -/
def shouldTranspose (d0 d1 size_x size_y : Nat) : Bool :=
  (d1 == size_x && d0 == size_y) && !(size_x == size_y)

/-- Modelled from the spec: the plane's stored leading dimensions after the
heuristic — swapped when the heuristic triggers, kept otherwise. -/
def storedPlaneDims (d0 d1 size_x size_y : Nat) : Nat × Nat :=
  if shouldTranspose d0 d1 size_x size_y then (d1, d0) else (d0, d1)

/-- Claim C2: a transpose is applied if and only if the plane's two leading
dimension lengths equal the declared sizes swapped — `(d0, d1) =
(size_y, size_x)` — and `size_x ≠ size_y`; with `size_x = size_y` no
transpose is ever applied, whatever the plane's orientation, and the stored
plane is then the plane as fetched. -/
theorem shouldTranspose_iff (d0 d1 size_x size_y : Nat) :
    (shouldTranspose d0 d1 size_x size_y = true ↔
      (d0 = size_y ∧ d1 = size_x ∧ size_x ≠ size_y)) ∧
    (size_x = size_y →
      shouldTranspose d0 d1 size_x size_y = false ∧
      storedPlaneDims d0 d1 size_x size_y = (d0, d1)) := by
  constructor
  · constructor
    · intro h
      simp only [shouldTranspose, Bool.and_eq_true, beq_iff_eq,
        Bool.not_eq_true', beq_eq_false_iff_ne] at h
      exact ⟨h.1.2, h.1.1, h.2⟩
    · rintro ⟨h0, h1, hne⟩
      simp [shouldTranspose, h0, h1, hne]
  · intro heq
    have hfalse : shouldTranspose d0 d1 size_x size_y = false := by
      simp [shouldTranspose, heq]
    exact ⟨hfalse, by simp [storedPlaneDims, hfalse]⟩

/-- Witness for C2, on the spec's worked example: a raw `(200, 100)` plane
with declared `size_x = 100, size_y = 200` is transposed, while with square
declared sizes no transpose happens and the plane is stored as fetched. -/
theorem shouldTranspose_iff_witness :
    shouldTranspose 200 100 100 200 = true ∧
    shouldTranspose 100 200 7 7 = false ∧
    storedPlaneDims 100 200 7 7 = (100, 200) :=
  ⟨((shouldTranspose_iff 200 100 100 200).1).mpr ⟨rfl, rfl, by decide⟩,
   ((shouldTranspose_iff 100 200 7 7).2 rfl).1,
   ((shouldTranspose_iff 100 200 7 7).2 rfl).2⟩
